import Mathlib

/-!
Shallow embedding of the data-fetching and caching layer of the
finance-viz-platform repository: `TWStockDataFetcher.fetch_statement` and
`DataLoader.load_company_data` from `finance_analyzer/data/loader.py`,
together with a model of the CSV cache round trip mirroring
`pandas.DataFrame.to_csv` / `pandas.read_csv` column type inference, and a
spec-modelled legacy HTML-sourced fetch variant.
-/

namespace FinanceViz

/-- A decimal number `mantissa / 10 ^ shift`, kept canonical (`shift = 0`
or `mantissa` not divisible by 10), so that structural equality coincides
with numeric equality.  This represents the int64/float64 values
`pandas.read_csv` produces for numeric-looking columns. -/
structure DecNum where
  mantissa : ℤ
  shift : Nat
deriving DecidableEq, Repr

/-- Canonicalise `m / 10 ^ k` by stripping factors of 10. -/
def normShift : ℤ → Nat → DecNum
  | m, 0 => ⟨m, 0⟩
  | m, k + 1 => if m % 10 == 0 then normShift (m / 10) k else ⟨m, k + 1⟩

/-- A pandas cell value: either object dtype (a string) or a numeric dtype.
`pandas.read_csv` type inference turns a column whose entries all look
numeric into a numeric column. -/
inductive Value where
  | vStr (s : String)
  | vNum (n : DecNum)
deriving DecidableEq, Repr

def isDigitChar (c : Char) : Bool := '0' ≤ c && c ≤ '9'

/-- Body of a numeric literal: digits, optionally followed by a dot and
more digits (the shapes `pandas.read_csv` parses as int64/float64). -/
def numericBody (cs : List Char) : Bool :=
  match cs.span isDigitChar with
  | (ds, []) => !ds.isEmpty
  | (ds, c :: rest) => c == '.' && !ds.isEmpty && !rest.isEmpty && rest.all isDigitChar

/-- Does the string look like a number to `pandas.read_csv` type inference? -/
def isNumericStr (s : String) : Bool :=
  match s.toList with
  | [] => false
  | '-' :: rest => numericBody rest
  | cs => numericBody cs

def digitsToNat (ds : List Char) : Nat :=
  ds.foldl (fun n c => n * 10 + (c.toNat - '0'.toNat)) 0

def parseBody (cs : List Char) : DecNum :=
  match cs.span isDigitChar with
  | (ds, []) => ⟨(digitsToNat ds : ℤ), 0⟩
  | (ds, _ :: rest) =>
    normShift ((digitsToNat ds : ℤ) * (10 : ℤ) ^ rest.length + (digitsToNat rest : ℤ))
      rest.length

/-- Numeric parse of a numeric-looking string (value of the int64/float64
cell `pandas.read_csv` produces for it). -/
def parseNumericStr (s : String) : DecNum :=
  match s.toList with
  | '-' :: rest => let n := parseBody rest; ⟨-n.mantissa, n.shift⟩
  | cs => parseBody cs

/-- Python `str` of a cell value, as used by `DataFrame.to_csv` and
`astype(str)`: strings unchanged, integers without a decimal point,
decimal fractions in shortest decimal notation. -/
def Value.render : Value → String
  | .vStr s => s
  | .vNum n =>
    match n.shift with
    | 0 => toString n.mantissa
    | k + 1 =>
      let a : ℕ := n.mantissa.natAbs
      let ip : ℕ := a / 10 ^ (k + 1)
      let fp : ℕ := a % 10 ^ (k + 1)
      let fpS : String := toString fp
      let pad : String := String.mk (List.replicate (k + 1 - fpS.length) '0')
      (if n.mantissa < 0 then "-" else "") ++ toString ip ++ "." ++ pad ++ fpS

/-- The on-disk cache file: a delimited table, header row plus records. -/
structure Csv where
  header : List String
  records : List (List String)
deriving DecidableEq, Repr

/-- A `DataFrame` with the default range index (as produced by
`pd.DataFrame(data)` or `pd.read_csv`). -/
structure Frame where
  columns : List String
  rows : List (List Value)
deriving DecidableEq, Repr

/-- `df.empty` -/
def Frame.isEmptyDf (f : Frame) : Bool := f.rows.isEmpty || f.columns.isEmpty

/-- A `DataFrame` after `set_index`: each entry pairs the index label with
the remaining cells of its row. -/
structure Table where
  indexName : String
  columns : List String
  entries : List (Value × List Value)
deriving DecidableEq, Repr

def Table.index (t : Table) : List Value := t.entries.map Prod.fst

def Table.rows (t : Table) : List (List Value) := t.entries.map Prod.snd

/-- `df.set_index(name)`; `none` models the `KeyError` raised when the
column is absent. -/
def Frame.setIndex (f : Frame) (name : String) : Option Table :=
  match f.columns.findIdx? (fun c => c == name) with
  | none => none
  | some i =>
    some { indexName := name
         , columns := f.columns.eraseIdx i
         , entries := f.rows.map (fun r => (r.getD i (.vStr ""), r.eraseIdx i)) }

/-- `df[name] = df[name].astype(str)`; `none` models the `KeyError` raised
when the column is absent. -/
def Frame.astypeStrCol (f : Frame) (name : String) : Option Frame :=
  match f.columns.findIdx? (fun c => c == name) with
  | none => none
  | some i =>
    some { f with rows := f.rows.map (fun r => r.set i (.vStr ((r.getD i (.vStr "")).render))) }

/-- `df.index = df.index.astype(str)` -/
def Table.astypeStrIndex (t : Table) : Table :=
  { t with entries := t.entries.map (fun p => (.vStr p.1.render, p.2)) }

/-- `df.rename(columns=...)` applied pointwise through a renaming function. -/
def Table.renameColumns (t : Table) (f : String → String) : Table :=
  { t with columns := t.columns.map f }

/-- `df.to_csv(path)`: the index is written as the first column under the
index name, every cell rendered with `str`. -/
def Table.toCsv (t : Table) : Csv :=
  { header := t.indexName :: t.columns
  , records := t.entries.map (fun p => p.1.render :: p.2.map Value.render) }

/-- Column `j` of a csv is inferred numeric by `pandas.read_csv` when it has
at least one record and every entry looks numeric. -/
def colAllNumeric (c : Csv) (j : Nat) : Bool :=
  !c.records.isEmpty && c.records.all (fun r => isNumericStr (r.getD j ""))

def parseCell (numeric : Bool) (s : String) : Value :=
  if numeric then .vNum (parseNumericStr s) else .vStr s

/-- `pd.read_csv(path)`: every csv column becomes a frame column, with
column-wise numeric type inference. -/
def readCsv (c : Csv) : Frame :=
  { columns := c.header
  , rows := c.records.map (fun r =>
      (List.range c.header.length).map (fun j => parseCell (colAllNumeric c j) (r.getD j ""))) }

/-! ## The statement fetcher (`TWStockDataFetcher.fetch_statement`) -/

/-- `Config.API_ENDPOINTS` from `finance_analyzer/data/loader.py`. -/
def API_ENDPOINTS : List (String × List (String × String)) :=
  [ ("twse", [("is", "/exchangeReport/BWIBBU_d"), ("bs", "/exchangeReport/BWIBBU_d")])
  , ("tpex", [("is", "/tpex_mainboard_peratio_analysis"), ("bs", "/tpex_mainboard_peratio_analysis")]) ]

/-- A JSON payload: `pd.DataFrame(data)` built from a uniform list of
records (the shape both open-data endpoints return). -/
structure Payload where
  columns : List String
  rows : List (List Value)
deriving DecidableEq, Repr

def Frame.ofPayload (p : Payload) : Frame := { columns := p.columns, rows := p.rows }

/-- The body of an HTTP 200 response: `resp.json()` either raises
(`invalid`) or yields a record list. -/
inductive Body where
  | invalid
  | json (p : Payload)
deriving Repr

/-- One remote exchange: either `requests` raises a transport error, or a
response with a status code and body arrives. -/
inductive HttpResult where
  | transportError
  | response (status : Nat) (body : Body)
deriving Repr

inductive FetchError where
  | valueError (msg : String)
  | runtimeError (msg : String)
deriving DecidableEq, Repr

instance instDecEqExcept {ε α : Type} [DecidableEq ε] [DecidableEq α] :
    DecidableEq (Except ε α) := fun a b =>
  match a, b with
  | .ok x, .ok y =>
    if h : x = y then .isTrue (by rw [h]) else .isFalse (by intro hc; cases hc; exact h rfl)
  | .error x, .error y =>
    if h : x = y then .isTrue (by rw [h]) else .isFalse (by intro hc; cases hc; exact h rfl)
  | .ok _, .error _ => .isFalse (by intro hc; cases hc)
  | .error _, .ok _ => .isFalse (by intro hc; cases hc)

/-- Observable outcome of one `fetch_statement` call: the returned table or
raised error, the number of HTTP attempts made, the total time slept, and
the cache file written (if any). -/
structure FetchOutcome where
  result : Except FetchError Table
  requests : Nat
  sleepTotal : ℚ
  cacheWrite : Option Csv
deriving DecidableEq, Repr

/-- The tpex column renaming dict `column_mapping` of
`fetch_statement` ("Rename columns to match TWSE format"). -/
def tpexMapping (c : String) : String :=
  if c == "SecuritiesCompanyCode" then "Code"
  else if c == "CompanyName" then "Name"
  else if c == "PriceEarningRatio" then "PEratio"
  else if c == "DividendPerShare" then "DividendYield"
  else if c == "YieldRatio" then "YieldRatio"
  else if c == "PriceBookRatio" then "PBratio"
  else c

/-- Fresh-fetch processing (loader.py lines 165–185): per-market astype of
the code column, `set_index`, and for tpex the column renaming.  `none`
models an exception caught by the generic `except` clause of the loop. -/
def processFresh (market : String) (f : Frame) : Option Table :=
  if market == "twse" then
    (f.astypeStrCol "Code").bind (fun f2 => f2.setIndex "Code")
  else
    ((f.astypeStrCol "SecuritiesCompanyCode").bind
        (fun f2 => f2.setIndex "SecuritiesCompanyCode")).map
      (fun t => t.renameColumns tpexMapping)

/-- Cache-read processing (loader.py lines 115–137): `set_index` on the
code column; for tpex also the column renaming and `index.astype(str)`.
The twse branch performs no `astype` on the index. -/
def processCache (market : String) (f : Frame) : Option Table :=
  if market == "twse" then f.setIndex "Code"
  else (f.setIndex "SecuritiesCompanyCode").map
    (fun t => (t.renameColumns tpexMapping).astypeStrIndex)

/-- State of today's cache file `{market}_{table_type}_{date}.csv`. -/
inductive CacheState where
  | absent
  | unreadable
  | present (c : Csv)
deriving DecidableEq, Repr

/-- The cache branch of `fetch_statement`: if the file exists, try to read
it; a read failure or processing exception is caught and logged, an empty
frame skips the `return`; in all those cases the call falls through to the
remote fetch (`none`). -/
def tryCache (market : String) (cs : CacheState) : Option Table :=
  match cs with
  | .absent => none
  | .unreadable => none
  | .present c =>
    let f := readCsv c
    if f.isEmptyDf then none else processCache market f

/-- The retry loop `for attempt in range(retry)` of `fetch_statement`:
on transport failure, non-200 status, unparsable or empty payload, or a
processing exception, sleep `sleep_time * (attempt + 1)` and retry; on
success cache the table and return it; exhausting the loop raises
`RuntimeError`. -/
def fetchLoop (table_type market : String) (responses : Nat → HttpResult) (sleep_time : ℚ) :
    Nat → Nat → Nat → ℚ → FetchOutcome
  | _, 0, reqAcc, sleepAcc =>
    { result := .error (.runtimeError
        ("Failed to fetch financial data: " ++ market ++ " " ++ table_type))
    , requests := reqAcc, sleepTotal := sleepAcc, cacheWrite := none }
  | attempt, remaining + 1, reqAcc, sleepAcc =>
    let retryNext := fetchLoop table_type market responses sleep_time
      (attempt + 1) remaining (reqAcc + 1) (sleepAcc + sleep_time * ((attempt : ℚ) + 1))
    match responses attempt with
    | .transportError => retryNext
    | .response status body =>
      if status ≠ 200 then retryNext
      else
        match body with
        | .invalid => retryNext
        | .json p =>
          if p.rows.isEmpty then retryNext
          else
            match processFresh market (Frame.ofPayload p) with
            | none => retryNext
            | some t =>
              { result := .ok t, requests := reqAcc + 1, sleepTotal := sleepAcc
              , cacheWrite := some t.toCsv }

/-- `TWStockDataFetcher.fetch_statement`, as a function of the call
arguments, today's cache state, and the stream of remote responses. -/
def fetch_statement (table_type market : String) (retry : Nat) (sleep_time : ℚ)
    (cache : CacheState) (responses : Nat → HttpResult) : FetchOutcome :=
  match API_ENDPOINTS.lookup market with
  | none =>
    { result := .error (.valueError "market must be one of ['twse', 'tpex']")
    , requests := 0, sleepTotal := 0, cacheWrite := none }
  | some eps =>
    if (eps.lookup table_type).isNone then
      { result := .error (.valueError "table_type must be one of ['is', 'bs']")
      , requests := 0, sleepTotal := 0, cacheWrite := none }
    else
      match tryCache market cache with
      | some t => { result := .ok t, requests := 0, sleepTotal := 0, cacheWrite := none }
      | none => fetchLoop table_type market responses sleep_time 0 retry 0 0

/-! ## The company data loader (`DataLoader.load_company_data`) -/

structure CompanyInfo where
  code : String
  name : String
  market : String
deriving DecidableEq, Repr

/-- `DataLoader.COMPANIES`: the static company registry. -/
def COMPANIES : List CompanyInfo :=
  [ ⟨"2727", "王品股份有限公司", "twse"⟩
  , ⟨"2729", "瓦城泰統股份有限公司", "twse"⟩
  , ⟨"2753", "八方雲集國際股份有限公司", "twse"⟩
  , ⟨"1259", "安心食品服務股份有限公司", "tpex"⟩
  , ⟨"1268", "漢來美食股份有限公司", "tpex"⟩
  , ⟨"7708", "全家國際餐飲股份有限公司", "tpex"⟩
  , ⟨"7705", "三商餐飲股份有限公司", "twse"⟩
  , ⟨"2752", "豆府股份有限公司", "tpex"⟩
  , ⟨"4419", "皇家國際美食股份有限公司", "tpex"⟩ ]

/-- Whitespace tokenisation of Python's `str.split()` (no arguments). -/
def splitTokensAux : List Char → List Char → List (List Char)
  | [], acc => if acc.isEmpty then [] else [acc.reverse]
  | c :: rest, acc =>
    if c.isWhitespace then
      if acc.isEmpty then splitTokensAux rest []
      else acc.reverse :: splitTokensAux rest []
    else splitTokensAux rest (c :: acc)

/-- `company.split()[0]`; `none` models the `IndexError` (caught by the
surrounding `except`) when the string has no token. -/
def firstToken (s : String) : Option String :=
  ((splitTokensAux s.toList []).map String.mk).head?

def strToUpper (s : String) : String := String.mk (s.toList.map Char.toUpper)

/-- `pd.concat([is_df.loc[[code]], bs_df.loc[[code]]], axis=1)` followed by
the `fetch_time` and `market` column assignments of `load_company_data`. -/
def concatCompanyRow (is_df bs_df : Table) (code now market : String) : Table :=
  let isSel := is_df.entries.filter (fun p => p.1 == Value.vStr code)
  let bsSel := bs_df.entries.filter (fun p => p.1 == Value.vStr code)
  { indexName := is_df.indexName
  , columns := is_df.columns ++ bs_df.columns ++ ["fetch_time", "market"]
  , entries := (isSel.zip bsSel).map
      (fun pq => (pq.1.1, pq.1.2 ++ pq.2.2 ++ [.vStr now, .vStr (strToUpper market)])) }

/-- `DataLoader.load_company_data`, as a function of the company string and
of the behaviour of the two `fetch_statement` calls (`doFetch table_type
market`); exceptions from a fetch are the `.error` case and lead to the
logged-and-`None` branch. -/
def load_company_data (company : String)
    (doFetch : String → String → Except FetchError Table) (now : String) : Option Table :=
  match firstToken company with
  | none => none
  | some stock_code =>
    match COMPANIES.find? (fun c => c.code == stock_code) with
    | none => none
    | some info =>
      match doFetch "is" info.market with
      | .error _ => none
      | .ok is_df =>
        match doFetch "bs" info.market with
        | .error _ => none
        | .ok bs_df =>
          if Value.vStr stock_code ∈ is_df.index ∧ Value.vStr stock_code ∈ bs_df.index then
            some (concatCompanyRow is_df bs_df stock_code now info.market)
          else none

/-! ## Legacy HTML-sourced fetch variant -/

/-- Does `page` contain `marker` as a substring (Python's `in`)? -/
def containsMarker (page marker : String) : Bool :=
  (List.range (page.toList.length + 1)).any
    (fun i => marker.toList.isPrefixOf (page.toList.drop i))

/-- One remote response of the legacy variant: either not an HTML page, or
an HTML page with the given text. -/
inductive LegacyResponse where
  | notHtml
  | html (page : String)
deriving Repr

inductive LegacyAttempt where
  | success (f : Frame)
  | transient
deriving DecidableEq, Repr

/-- Modelled from the spec: the legacy HTML-sourced fetch variant with
two-parser extraction fallback and blocked-marker detection is not present
under the sources — only the parser preference declaration
(`preferred_parser`/`fallback_parser` in `AppConfig.DEFAULT_CONFIG`) and a
simpler HTML fetcher (`modules/data_loader.py`) survive.  Per the spec:
a non-HTML response is a transient failure; an HTML page containing the
known "blocked" marker string is a transient failure; otherwise extraction
is attempted with the primary table parser, then the fallback parser, and
only when both fail is the attempt declared failed (transient). -/
def legacyAttempt (primary fallback : String → Option Frame) (marker : String) :
    LegacyResponse → LegacyAttempt
  | .notHtml => .transient
  | .html page =>
    if containsMarker page marker then .transient
    else
      match primary page with
      | some f => .success f
      | none =>
        match fallback page with
        | some f => .success f
        | none => .transient

/-- Modelled from the spec: the legacy variant's retry loop — a transient
attempt is retried up to the retry bound; exhausting retries raises. -/
def legacyFetch (primary fallback : String → Option Frame) (marker : String)
    (responses : Nat → LegacyResponse) : Nat → Nat → Except String Frame
  | _, 0 => .error "fetch failed"
  | attempt, remaining + 1 =>
    match legacyAttempt primary fallback marker (responses attempt) with
    | .success f => .ok f
    | .transient => legacyFetch primary fallback marker responses (attempt + 1) remaining

/-! ## Theorems -/

/-- One failing attempt of the retry loop: every response is a non-200
status, so each loop iteration sleeps and retries, and exhausting the loop
raises `RuntimeError`. -/
theorem fetchLoop_allFail (table_type market : String) (responses : Nat → HttpResult)
    (st : ℚ) (h : ∀ a, ∃ s b, responses a = .response s b ∧ s ≠ 200) :
    ∀ (rem attempt req : Nat) (sl : ℚ),
      fetchLoop table_type market responses st attempt rem req sl =
        { result := .error (.runtimeError
            ("Failed to fetch financial data: " ++ market ++ " " ++ table_type))
        , requests := req + rem
        , sleepTotal := sl + st * ∑ i ∈ Finset.range rem, ((attempt : ℚ) + i + 1)
        , cacheWrite := none } := by
  intro rem
  induction rem with
  | zero => intro attempt req sl; simp [fetchLoop]
  | succ n ih =>
    intro attempt req sl
    obtain ⟨s, b, he, hs⟩ := h attempt
    rw [fetchLoop]
    simp only [he, if_pos hs]
    rw [ih]
    have hreq : req + 1 + n = req + (n + 1) := by omega
    have hsum : ∑ i ∈ Finset.range n, (((attempt + 1 : ℕ) : ℚ) + i + 1) =
        ∑ i ∈ Finset.range n, ((attempt : ℚ) + ((i + 1 : ℕ) : ℚ) + 1) :=
      Finset.sum_congr rfl (fun i _ => by push_cast; ring)
    have hsleep :
        sl + st * ((attempt : ℚ) + 1) +
            st * ∑ i ∈ Finset.range n, (((attempt + 1 : ℕ) : ℚ) + i + 1) =
          sl + st * ∑ i ∈ Finset.range (n + 1), ((attempt : ℚ) + i + 1) := by
      rw [hsum, Finset.sum_range_succ']
      push_cast
      ring
    rw [hreq, hsleep]

/-- Claim C10: with retry = 0 and no cache entry for today's key,
fetch_statement raises RuntimeError immediately: no network request is made
and no sleep occurs. -/
theorem c10_zero_retry (table_type market : String) (st : ℚ) (responses : Nat → HttpResult)
    (hm : market = "twse" ∨ market = "tpex") (ht : table_type = "is" ∨ table_type = "bs") :
    fetch_statement table_type market 0 st .absent responses =
      { result := .error (.runtimeError
          ("Failed to fetch financial data: " ++ market ++ " " ++ table_type))
      , requests := 0, sleepTotal := 0, cacheWrite := none } := by
  rcases hm with rfl | rfl <;> rcases ht with rfl | rfl <;> rfl

/-- Witness for C10 at a concrete input. -/
theorem c10_zero_retry_witness :
    fetch_statement "is" "twse" 0 2 .absent (fun _ => .transportError) =
      { result := .error (.runtimeError "Failed to fetch financial data: twse is")
      , requests := 0, sleepTotal := 0, cacheWrite := none } :=
  c10_zero_retry "is" "twse" 2 (fun _ => .transportError) (Or.inl rfl) (Or.inl rfl)

/-- Claim C3: an unknown market or unknown table_type raises ValueError
with no network request, no sleep and no cache write, whatever the cache
state. -/
theorem c3_validation_first (table_type market : String) (retry : Nat) (st : ℚ)
    (cache : CacheState) (responses : Nat → HttpResult)
    (h : market ∉ ["twse", "tpex"] ∨ table_type ∉ ["is", "bs"]) :
    ∃ msg, fetch_statement table_type market retry st cache responses =
      { result := .error (.valueError msg)
      , requests := 0, sleepTotal := 0, cacheWrite := none } := by
  rcases h with h | h
  · have e1 : (market == "twse") = false :=
      beq_eq_false_iff_ne.mpr (fun e => h (by rw [e]; simp))
    have e2 : (market == "tpex") = false :=
      beq_eq_false_iff_ne.mpr (fun e => h (by rw [e]; simp))
    exact ⟨"market must be one of ['twse', 'tpex']",
      by simp [fetch_statement, API_ENDPOINTS, List.lookup, e1, e2]⟩
  · have e1 : (table_type == "is") = false :=
      beq_eq_false_iff_ne.mpr (fun e => h (by rw [e]; simp))
    have e2 : (table_type == "bs") = false :=
      beq_eq_false_iff_ne.mpr (fun e => h (by rw [e]; simp))
    by_cases hm : market = "twse"
    · subst hm
      exact ⟨"table_type must be one of ['is', 'bs']",
        by simp [fetch_statement, API_ENDPOINTS, List.lookup, e1, e2]⟩
    · by_cases hm2 : market = "tpex"
      · subst hm2
        exact ⟨"table_type must be one of ['is', 'bs']",
          by simp [fetch_statement, API_ENDPOINTS, List.lookup, e1, e2]⟩
      · have f1 : (market == "twse") = false := beq_eq_false_iff_ne.mpr hm
        have f2 : (market == "tpex") = false := beq_eq_false_iff_ne.mpr hm2
        exact ⟨"market must be one of ['twse', 'tpex']",
          by simp [fetch_statement, API_ENDPOINTS, List.lookup, f1, f2]⟩

/-- Witness for C3 at a concrete input. -/
theorem c3_validation_first_witness :
    ∃ msg, fetch_statement "is" "otc" 3 2 .absent (fun _ => .transportError) =
      { result := .error (.valueError msg)
      , requests := 0, sleepTotal := 0, cacheWrite := none } :=
  c3_validation_first "is" "otc" 3 2 .absent (fun _ => .transportError)
    (Or.inl (by decide))

/-- Claim C2: with every response a non-200 status and no usable cache,
fetch_statement makes exactly retry attempts, sleeps at least
sleep_time * (1 + 2 + ... + retry), and raises RuntimeError. -/
theorem c2_retry_exhaustion (table_type market : String) (retry : Nat) (st : ℚ)
    (responses : Nat → HttpResult)
    (hm : market = "twse" ∨ market = "tpex") (ht : table_type = "is" ∨ table_type = "bs")
    (hr : 1 ≤ retry) (hs : 0 < st)
    (h : ∀ a, ∃ s b, responses a = .response s b ∧ s ≠ 200) :
    (fetch_statement table_type market retry st .absent responses).requests = retry ∧
    (fetch_statement table_type market retry st .absent responses).sleepTotal ≥
      st * ∑ i ∈ Finset.range retry, ((i : ℚ) + 1) ∧
    ∃ msg, (fetch_statement table_type market retry st .absent responses).result =
      .error (.runtimeError msg) := by
  have hloop := fetchLoop_allFail table_type market responses st h retry 0 0 0
  have hfs : fetch_statement table_type market retry st .absent responses =
      fetchLoop table_type market responses st 0 retry 0 0 := by
    rcases hm with rfl | rfl <;> rcases ht with rfl | rfl <;> rfl
  rw [hfs, hloop]
  refine ⟨by simp, ?_, _, rfl⟩
  simp only [ge_iff_le, zero_add]
  exact le_of_eq (by norm_num)

/-- Witness for C2 at a concrete input. -/
theorem c2_retry_exhaustion_witness :
    (fetch_statement "is" "twse" 2 2 .absent (fun _ => .response 404 .invalid)).requests = 2 ∧
    (fetch_statement "is" "twse" 2 2 .absent (fun _ => .response 404 .invalid)).sleepTotal ≥
      2 * ∑ i ∈ Finset.range 2, ((i : ℚ) + 1) ∧
    ∃ msg, (fetch_statement "is" "twse" 2 2 .absent
      (fun _ => .response 404 .invalid)).result = .error (.runtimeError msg) :=
  c2_retry_exhaustion "is" "twse" 2 2 (fun _ => .response 404 .invalid)
    (Or.inl rfl) (Or.inl rfl) (by decide) (by decide)
    (fun _ => ⟨404, .invalid, rfl, by decide⟩)

/-- Claim C9: a cache file that exists but cannot be read, or whose content
is unusable (empty frame, missing code column), is skipped: the call
behaves exactly as if the cache entry were absent. -/
theorem c9_cache_failure_falls_through (table_type market : String) (retry : Nat) (st : ℚ)
    (responses : Nat → HttpResult) (cs : CacheState)
    (hne : cs ≠ .absent) (h : tryCache market cs = none) :
    fetch_statement table_type market retry st cs responses =
      fetch_statement table_type market retry st .absent responses := by
  unfold fetch_statement
  rw [h]
  rfl

/-- Witness for C9 at a concrete input (an unreadable cache file). -/
theorem c9_cache_failure_falls_through_witness :
    fetch_statement "is" "twse" 3 2 .unreadable (fun _ => .transportError) =
      fetch_statement "is" "twse" 3 2 .absent (fun _ => .transportError) :=
  c9_cache_failure_falls_through "is" "twse" 3 2 (fun _ => .transportError)
    .unreadable (by decide) rfl

/-- A twse cache file as written by a successful fetch: all-numeric code
column, one numeric-looking value column. -/
def c4Csv : Csv := ⟨["Code", "Name", "PEratio"], [["2727", "WOWPRIME", "25.80"]]⟩

/-- Claim C4 (code bug): reading today's twse cache file back returns a
table whose index entry is numeric, not a string — `pd.read_csv` infers
int64 for the all-numeric Code column and the twse cache branch, unlike
the tpex branch and both fresh-fetch branches, never applies
`astype(str)`. -/
theorem c4_twse_cache_numeric_index :
    (fetch_statement "is" "twse" 3 2 (.present c4Csv) (fun _ => .transportError)).result =
      .ok ⟨"Code", ["Name", "PEratio"],
        [(.vNum ⟨2727, 0⟩, [.vStr "WOWPRIME", .vNum ⟨258, 1⟩])]⟩ := by decide

/-- The remote payload of the C1 scenario (string-valued JSON records, as
the open-data endpoints return). -/
def c1Payload : Payload :=
  ⟨["Code", "Name", "PEratio"], [[.vStr "2727", .vStr "WOWPRIME", .vStr "25.80"]]⟩

def c1Responses : Nat → HttpResult := fun _ => .response 200 (.json c1Payload)

/-- First call of the C1 scenario: no cache yet. -/
def c1First : FetchOutcome := fetch_statement "is" "twse" 3 2 .absent c1Responses

/-- Second call of the C1 scenario: today's cache file is the one the first
call wrote. -/
def c1Second : FetchOutcome :=
  fetch_statement "is" "twse" 3 2 (.present (c1First.cacheWrite.getD ⟨[], []⟩)) c1Responses

/-- Claim C1 counterexample: the second same-day call is served from the
cache (zero HTTP requests) but does not return a table identical to the
first call's — the CSV round trip re-types the all-numeric code column and
the numeric-looking value column. -/
theorem c1_counterexample :
    c1Second.requests = 0 ∧ c1Second.result ≠ c1First.result := by decide

/-- A table as the fetcher writes it to the cache (all cells strings). -/
def c5Written : Table :=
  ⟨"Code", ["Name", "PEratio"], [(.vStr "2727", [.vStr "WOWPRIME", .vStr "25.80"])]⟩

/-- Claim C5 counterexample: re-reading the cache entry written for
`c5Written` succeeds but yields a different table — numeric-looking string
cells come back as numbers. -/
theorem c5_counterexample :
    tryCache "twse" (.present c5Written.toCsv) =
      some ⟨"Code", ["Name", "PEratio"],
        [(.vNum ⟨2727, 0⟩, [.vStr "WOWPRIME", .vNum ⟨258, 1⟩])]⟩ ∧
    tryCache "twse" (.present c5Written.toCsv) ≠ some c5Written := by decide

/-- Income-statement table of the C7 scenario: contains company 2727. -/
def c7IsT : Table := ⟨"Code", ["PEratio"], [(.vStr "2727", [.vStr "25.80"])]⟩

/-- Balance-sheet table of the C7 scenario: company 2727 is absent. -/
def c7BsT : Table := ⟨"Code", ["PBratio"], [(.vStr "9998", [.vStr "3.45"])]⟩

def c7Fetch : String → String → Except FetchError Table :=
  fun tb _ => if tb == "is" then .ok c7IsT else .ok c7BsT

/-- Claim C7 counterexample: company 2727 is a known registry entry and is
present in the income-statement table, but absent only from the
balance-sheet table — yet load_company_data returns the null result, so
"null exactly when unknown or absent from both tables" is false. -/
theorem c7_counterexample :
    load_company_data "2727 王品股份有限公司" c7Fetch "2024-01-01 00:00:00" = none ∧
    (COMPANIES.find? (fun c => c.code == "2727")).isSome = true ∧
    Value.vStr "2727" ∈ c7IsT.index := by decide

/-- Claim C8: in the legacy HTML-sourced variant, a non-blocked HTML page
fails the attempt only when both the primary and the fallback parser fail
(and succeeds with the primary parser's tables when it succeeds), while a
page containing the blocked marker is a transient failure that the retry
loop retries rather than aborting. -/
theorem c8_legacy (primary fallback : String → Option Frame) (marker page : String)
    (responses : Nat → LegacyResponse) (rem : Nat) :
    (containsMarker page marker = false →
      (legacyAttempt primary fallback marker (.html page) = .transient ↔
        primary page = none ∧ fallback page = none)) ∧
    (∀ f, containsMarker page marker = false → primary page = some f →
      legacyAttempt primary fallback marker (.html page) = .success f) ∧
    (containsMarker page marker = true → responses 0 = .html page →
      legacyFetch primary fallback marker responses 0 (rem + 2) =
        legacyFetch primary fallback marker responses 1 (rem + 1)) := by
  refine ⟨?_, ?_, ?_⟩
  · intro hb
    simp only [legacyAttempt]
    rw [if_neg (by simp [hb])]
    cases hp : primary page with
    | some f => simp [hp]
    | none =>
      cases hq : fallback page with
      | some f => simp [hq]
      | none => simp [hq]
  · intro f hb hp
    simp only [legacyAttempt]
    rw [if_neg (by simp [hb]), hp]
  · intro hb h0
    rw [legacyFetch, h0]
    simp only [legacyAttempt]
    rw [if_pos (by simp [hb])]

def c8Primary : String → Option Frame := fun _ => none

def c8Fallback : String → Option Frame :=
  fun page => if page == "ok" then some ⟨["X"], []⟩ else none

def c8Responses : Nat → LegacyResponse :=
  fun i => if i == 0 then .html "Overrun" else .html "ok"

/-- Witness for C8 at concrete inputs: a clean page with both parsers
failing, and a blocked first response that is retried. -/
theorem c8_legacy_witness :
    (legacyAttempt c8Primary c8Fallback "Overrun" (.html "ok") = .transient ↔
      c8Primary "ok" = none ∧ c8Fallback "ok" = none) ∧
    legacyFetch c8Primary c8Fallback "Overrun" c8Responses 0 2 =
      legacyFetch c8Primary c8Fallback "Overrun" c8Responses 1 1 :=
  ⟨(c8_legacy c8Primary c8Fallback "Overrun" "ok" c8Responses 0).1 (by decide),
   (c8_legacy c8Primary c8Fallback "Overrun" "Overrun" c8Responses 0).2.2 (by decide) rfl⟩

/-! ### Inversion helpers for the fetch loop and the table operations -/

theorem processCache_twse_def (f : Frame) : processCache "twse" f = f.setIndex "Code" := rfl

theorem processCache_tpex_def (f : Frame) :
    processCache "tpex" f = (f.setIndex "SecuritiesCompanyCode").map
      (fun t => (t.renameColumns tpexMapping).astypeStrIndex) := rfl

theorem processFresh_twse_def (f : Frame) :
    processFresh "twse" f = (f.astypeStrCol "Code").bind (fun f2 => f2.setIndex "Code") := rfl

theorem processFresh_tpex_def (f : Frame) :
    processFresh "tpex" f =
      ((f.astypeStrCol "SecuritiesCompanyCode").bind
          (fun f2 => f2.setIndex "SecuritiesCompanyCode")).map
        (fun t => t.renameColumns tpexMapping) := rfl

/-- What `set_index` guarantees about its output. -/
theorem setIndex_out {f : Frame} {name : String} {t : Table}
    (h : f.setIndex name = some t) :
    t.indexName = name ∧ t.entries.length = f.rows.length ∧
      ∃ i, t.columns = f.columns.eraseIdx i := by
  unfold Frame.setIndex at h
  cases hf : f.columns.findIdx? (fun c => c == name) with
  | none => rw [hf] at h; cases h
  | some i =>
    rw [hf] at h
    injection h with h
    subst h
    exact ⟨rfl, by simp, i, rfl⟩

/-- `astype(str)` on a column preserves the shape of the frame. -/
theorem astypeStrCol_out {f f2 : Frame} {name : String}
    (h : f.astypeStrCol name = some f2) :
    f2.columns = f.columns ∧ f2.rows.length = f.rows.length := by
  unfold Frame.astypeStrCol at h
  cases hf : f.columns.findIdx? (fun c => c == name) with
  | none => rw [hf] at h; cases h
  | some i =>
    rw [hf] at h
    injection h with h
    subst h
    exact ⟨rfl, by simp⟩

/-- A successful pass through the retry loop wrote the returned table to
the cache, and the table is the fresh processing of some nonempty
payload. -/
theorem fetchLoop_ok (table_type market : String) (responses : Nat → HttpResult) (st : ℚ) :
    ∀ (rem attempt req : Nat) (sl : ℚ) (t : Table),
      (fetchLoop table_type market responses st attempt rem req sl).result = .ok t →
      (fetchLoop table_type market responses st attempt rem req sl).cacheWrite =
        some t.toCsv ∧
      ∃ p : Payload, p.rows ≠ [] ∧ processFresh market (Frame.ofPayload p) = some t := by
  intro rem
  induction rem with
  | zero => intro attempt req sl t h; simp [fetchLoop] at h
  | succ n ih =>
    intro attempt req sl t h
    rw [fetchLoop] at h ⊢
    cases hr : responses attempt with
    | transportError =>
      simp only [hr] at h ⊢
      exact ih _ _ _ _ h
    | response s b =>
      simp only [hr] at h ⊢
      by_cases hst : s = 200
      · rw [if_neg (by simp [hst])] at h ⊢
        cases b with
        | invalid => exact ih _ _ _ _ h
        | json p =>
          simp only [] at h ⊢
          by_cases hemp : p.rows.isEmpty = true
          · rw [if_pos hemp] at h ⊢
            exact ih _ _ _ _ h
          · rw [if_neg hemp] at h ⊢
            cases hp : processFresh market (Frame.ofPayload p) with
            | none =>
              rw [hp] at h
              exact ih _ _ _ _ h
            | some t2 =>
              rw [hp] at h
              simp only [] at h
              injection h with h
              subst h
              exact ⟨rfl, p, by simpa using hemp, hp⟩
      · rw [if_pos hst] at h ⊢
        exact ih _ _ _ _ h

/-- `set_index` succeeds whenever the requested column is present. -/
theorem setIndex_isSome {f : Frame} {name : String}
    (h : (f.columns.findIdx? (fun c => c == name)).isSome = true) :
    ∃ t2, f.setIndex name = some t2 := by
  unfold Frame.setIndex
  cases hf : f.columns.findIdx? (fun c => c == name) with
  | none => rw [hf] at h; cases h
  | some i => exact ⟨_, rfl⟩

/-- A successful fetch implies the arguments passed validation. -/
theorem fetch_ok_valid {table_type market : String} {retry : Nat} {st : ℚ}
    {cache : CacheState} {resp : Nat → HttpResult} {t : Table}
    (h : (fetch_statement table_type market retry st cache resp).result = .ok t) :
    (market = "twse" ∨ market = "tpex") ∧ (table_type = "is" ∨ table_type = "bs") := by
  by_cases h1 : market = "twse"
  · subst h1
    refine ⟨Or.inl rfl, ?_⟩
    by_cases h2 : table_type = "is"
    · exact Or.inl h2
    · by_cases h3 : table_type = "bs"
      · exact Or.inr h3
      · exfalso
        have e2 : (table_type == "is") = false := beq_eq_false_iff_ne.mpr h2
        have e3 : (table_type == "bs") = false := beq_eq_false_iff_ne.mpr h3
        simp [fetch_statement, API_ENDPOINTS, List.lookup, e2, e3] at h
  · by_cases h4 : market = "tpex"
    · subst h4
      refine ⟨Or.inr rfl, ?_⟩
      by_cases h2 : table_type = "is"
      · exact Or.inl h2
      · by_cases h3 : table_type = "bs"
        · exact Or.inr h3
        · exfalso
          have e2 : (table_type == "is") = false := beq_eq_false_iff_ne.mpr h2
          have e3 : (table_type == "bs") = false := beq_eq_false_iff_ne.mpr h3
          simp [fetch_statement, API_ENDPOINTS, List.lookup, e2, e3] at h
    · exfalso
      have e1 : (market == "twse") = false := beq_eq_false_iff_ne.mpr h1
      have e4 : (market == "tpex") = false := beq_eq_false_iff_ne.mpr h4
      simp [fetch_statement, API_ENDPOINTS, List.lookup, e1, e4] at h

/-- With valid arguments, the fetch is the cache branch followed by the
retry loop. -/
theorem fetch_valid_eq {table_type market : String} (retry : Nat) (st : ℚ)
    (cache : CacheState) (resp : Nat → HttpResult)
    (hm : market = "twse" ∨ market = "tpex") (ht : table_type = "is" ∨ table_type = "bs") :
    fetch_statement table_type market retry st cache resp =
      match tryCache market cache with
      | some t => { result := .ok t, requests := 0, sleepTotal := 0, cacheWrite := none }
      | none => fetchLoop table_type market resp st 0 retry 0 0 := by
  rcases hm with rfl | rfl <;> rcases ht with rfl | rfl <;> rfl

/-- A cache hit comes from a present, readable, nonempty file whose
processing succeeded. -/
theorem tryCache_some {market : String} {cache : CacheState} {t : Table}
    (h : tryCache market cache = some t) :
    ∃ c, cache = .present c ∧ (readCsv c).isEmptyDf = false ∧
      processCache market (readCsv c) = some t := by
  cases cache with
  | absent => simp [tryCache] at h
  | unreadable => simp [tryCache] at h
  | present c =>
    simp only [tryCache] at h
    by_cases he : (readCsv c).isEmptyDf = true
    · rw [if_pos he] at h; cases h
    · rw [if_neg he] at h
      exact ⟨c, rfl, by simpa using he, h⟩

theorem processFresh_twse_out {f : Frame} {t : Table}
    (h : processFresh "twse" f = some t) :
    t.indexName = "Code" ∧ t.entries.length = f.rows.length := by
  rw [processFresh_twse_def] at h
  obtain ⟨f2, ha, hs⟩ := Option.bind_eq_some.mp h
  obtain ⟨hidx, hlen, -⟩ := setIndex_out hs
  obtain ⟨-, hrows⟩ := astypeStrCol_out ha
  exact ⟨hidx, by rw [hlen, hrows]⟩

theorem processFresh_tpex_out {f : Frame} {t : Table}
    (h : processFresh "tpex" f = some t) :
    t.indexName = "SecuritiesCompanyCode" ∧ t.entries.length = f.rows.length := by
  rw [processFresh_tpex_def] at h
  obtain ⟨t1, h1, h2⟩ := Option.map_eq_some'.mp h
  obtain ⟨f2, ha, hs⟩ := Option.bind_eq_some.mp h1
  obtain ⟨hidx, hlen, -⟩ := setIndex_out hs
  obtain ⟨-, hrows⟩ := astypeStrCol_out ha
  subst h2
  refine ⟨hidx, ?_⟩
  simp only [Table.renameColumns]
  rw [hlen, hrows]

theorem processFresh_tpex_columns {f : Frame} {t : Table}
    (h : processFresh "tpex" f = some t) :
    ∃ cols i, t.columns = (List.eraseIdx cols i).map tpexMapping := by
  rw [processFresh_tpex_def] at h
  obtain ⟨t1, h1, h2⟩ := Option.map_eq_some'.mp h
  obtain ⟨f2, ha, hs⟩ := Option.bind_eq_some.mp h1
  obtain ⟨-, -, i, hcols⟩ := setIndex_out hs
  obtain ⟨hacols, -⟩ := astypeStrCol_out ha
  subst h2
  exact ⟨f.columns, i, by simp [Table.renameColumns, hcols, hacols]⟩

theorem processCache_tpex_columns {f : Frame} {t : Table}
    (h : processCache "tpex" f = some t) :
    ∃ cols i, t.columns = (List.eraseIdx cols i).map tpexMapping := by
  rw [processCache_tpex_def] at h
  obtain ⟨t1, h1, h2⟩ := Option.map_eq_some'.mp h
  obtain ⟨-, -, i, hcols⟩ := setIndex_out h1
  subst h2
  exact ⟨f.columns, i, by simp [Table.renameColumns, Table.astypeStrIndex, hcols]⟩

/-- The tpex-specific raw field names that the column renaming removes. -/
def tpexForeignNames : List String :=
  ["SecuritiesCompanyCode", "CompanyName", "PriceEarningRatio",
   "DividendPerShare", "PriceBookRatio"]

/-- The renaming map never outputs a tpex-specific raw field name. -/
theorem tpexMapping_notForeign (c : String) : tpexMapping c ∉ tpexForeignNames := by
  unfold tpexMapping
  split_ifs with h1 h2 h3 h4 h5 h6
  any_goals decide
  have n1 : c ≠ "SecuritiesCompanyCode" := by simpa using h1
  have n2 : c ≠ "CompanyName" := by simpa using h2
  have n3 : c ≠ "PriceEarningRatio" := by simpa using h3
  have n4 : c ≠ "DividendPerShare" := by simpa using h4
  have n6 : c ≠ "PriceBookRatio" := by simpa using h6
  simp [tpexForeignNames, n1, n2, n3, n4, n6]

/-- Claim C6: every table a tpex fetch returns (from cache or fresh) has
been through the column renaming, so none of the tpex-specific raw field
names appears among its columns. -/
theorem c6_tpex_columns_renamed (table_type : String) (retry : Nat) (st : ℚ)
    (cache : CacheState) (resp : Nat → HttpResult) (t : Table) (b : String)
    (h : (fetch_statement table_type "tpex" retry st cache resp).result = .ok t)
    (hb : b ∈ tpexForeignNames) : b ∉ t.columns := by
  have hcols : ∃ cols i, t.columns = (List.eraseIdx cols i).map tpexMapping := by
    have hv := fetch_ok_valid h
    have heq := fetch_valid_eq retry st cache resp (Or.inr rfl) hv.2
    rw [heq] at h
    cases hc : tryCache "tpex" cache with
    | some t1 =>
      rw [hc] at h
      simp only [] at h
      injection h with h
      subst h
      obtain ⟨c, -, -, hp⟩ := tryCache_some hc
      exact processCache_tpex_columns hp
    | none =>
      rw [hc] at h
      obtain ⟨-, p, -, hp⟩ := fetchLoop_ok _ _ _ _ retry 0 0 0 _ h
      exact processFresh_tpex_columns hp
  obtain ⟨cols, i, hcl⟩ := hcols
  rw [hcl]
  intro hmem
  obtain ⟨c, -, hcb⟩ := List.mem_map.mp hmem
  exact tpexMapping_notForeign c (hcb ▸ hb)

def c6Payload : Payload :=
  ⟨["SecuritiesCompanyCode", "CompanyName", "PriceEarningRatio"],
   [[.vStr "1259", .vStr "ANXIN", .vStr "18.00"]]⟩

def c6Responses : Nat → HttpResult := fun _ => .response 200 (.json c6Payload)

/-- The table the concrete C6 scenario returns. -/
def c6Result : Table :=
  ⟨"SecuritiesCompanyCode", ["Name", "PEratio"],
   [(.vStr "1259", [.vStr "ANXIN", .vStr "18.00"])]⟩

/-- Witness for C6 at a concrete input. -/
theorem c6_tpex_columns_renamed_witness : "CompanyName" ∉ c6Result.columns :=
  c6_tpex_columns_renamed "is" 1 1 .absent c6Responses c6Result "CompanyName"
    (by decide) (by decide)

theorem readCsv_toCsv_columns (t : Table) :
    (readCsv t.toCsv).columns = t.indexName :: t.columns := rfl

theorem readCsv_toCsv_nonempty {t : Table} (hne : t.entries ≠ []) :
    (readCsv t.toCsv).isEmptyDf = false := by
  simp [Frame.isEmptyDf, readCsv, Table.toCsv, hne]

/-- `set_index` succeeds when the requested column heads the column
list. -/
theorem setIndex_cons_head {f : Frame} {name : String} {rest : List String}
    (hc : f.columns = name :: rest) : ∃ t2, f.setIndex name = some t2 := by
  apply setIndex_isSome
  rw [hc]
  simp [List.findIdx?_cons]

/-- Re-reading the file written for a twse table always succeeds: the file
is nonempty and its first column is the Code column. -/
theorem tryCache_hit_twse {t : Table} (hidx : t.indexName = "Code")
    (hne : t.entries ≠ []) :
    ∃ t2, tryCache "twse" (.present t.toCsv) = some t2 := by
  obtain ⟨t2, h2⟩ := @setIndex_cons_head (readCsv t.toCsv) "Code" t.columns
    (by rw [readCsv_toCsv_columns, hidx])
  refine ⟨t2, ?_⟩
  simp only [tryCache]
  rw [if_neg (by simp [readCsv_toCsv_nonempty hne])]
  rw [processCache_twse_def]
  exact h2

/-- Re-reading the file written for a tpex table always succeeds. -/
theorem tryCache_hit_tpex {t : Table} (hidx : t.indexName = "SecuritiesCompanyCode")
    (hne : t.entries ≠ []) :
    ∃ t2, tryCache "tpex" (.present t.toCsv) = some t2 := by
  obtain ⟨t1, h1⟩ := @setIndex_cons_head (readCsv t.toCsv) "SecuritiesCompanyCode" t.columns
    (by rw [readCsv_toCsv_columns, hidx])
  refine ⟨(t1.renameColumns tpexMapping).astypeStrIndex, ?_⟩
  simp only [tryCache]
  rw [if_neg (by simp [readCsv_toCsv_nonempty hne])]
  rw [processCache_tpex_def, h1]
  rfl

/-- Claim C1 (amended): a first successful call writes the returned table
to today's cache file; a second same-day call for the same key performs no
remote HTTP request and is served from that file — but it returns the CSV
re-parse of the file, which need not be identical to the first call's
table. -/
theorem c1_amended (table_type market : String) (retry : Nat) (st : ℚ)
    (resp resp2 : Nat → HttpResult) (t : Table)
    (h : (fetch_statement table_type market retry st .absent resp).result = .ok t) :
    (fetch_statement table_type market retry st .absent resp).cacheWrite =
      some t.toCsv ∧
    ∃ t2, tryCache market (.present t.toCsv) = some t2 ∧
      fetch_statement table_type market retry st (.present t.toCsv) resp2 =
        { result := .ok t2, requests := 0, sleepTotal := 0, cacheWrite := none } := by
  obtain ⟨hm, ht⟩ := fetch_ok_valid h
  have heq := fetch_valid_eq retry st .absent resp hm ht
  have habs : tryCache market .absent = none := by cases hm with
    | inl h1 => subst h1; rfl
    | inr h1 => subst h1; rfl
  rw [heq] at h ⊢
  rw [habs] at h ⊢
  obtain ⟨hcw, p, hpne, hpf⟩ := fetchLoop_ok _ _ _ _ retry 0 0 0 _ h
  refine ⟨hcw, ?_⟩
  have hlen0 : (Frame.ofPayload p).rows ≠ [] := hpne
  rcases hm with rfl | rfl
  · obtain ⟨hidx, hlen⟩ := processFresh_twse_out hpf
    have hne : t.entries ≠ [] := by
      intro hnil
      apply hlen0
      have := hlen
      rw [hnil] at this
      exact List.length_eq_zero.mp this.symm
    obtain ⟨t2, ht2⟩ := tryCache_hit_twse hidx hne
    refine ⟨t2, ht2, ?_⟩
    rw [fetch_valid_eq retry st _ resp2 (Or.inl rfl) ht, ht2]
  · obtain ⟨hidx, hlen⟩ := processFresh_tpex_out hpf
    have hne : t.entries ≠ [] := by
      intro hnil
      apply hlen0
      have := hlen
      rw [hnil] at this
      exact List.length_eq_zero.mp this.symm
    obtain ⟨t2, ht2⟩ := tryCache_hit_tpex hidx hne
    refine ⟨t2, ht2, ?_⟩
    rw [fetch_valid_eq retry st _ resp2 (Or.inr rfl) ht, ht2]

/-- The table the first call of the C1 scenario returns. -/
def c1FirstTable : Table :=
  ⟨"Code", ["Name", "PEratio"], [(.vStr "2727", [.vStr "WOWPRIME", .vStr "25.80"])]⟩

/-- Witness for the amended C1 at a concrete input. -/
theorem c1_amended_witness :
    (fetch_statement "is" "twse" 3 2 .absent c1Responses).cacheWrite =
      some c1FirstTable.toCsv ∧
    ∃ t2, tryCache "twse" (.present c1FirstTable.toCsv) = some t2 ∧
      fetch_statement "is" "twse" 3 2 (.present c1FirstTable.toCsv) c1Responses =
        { result := .ok t2, requests := 0, sleepTotal := 0, cacheWrite := none } :=
  c1_amended "is" "twse" 3 2 c1Responses c1Responses c1FirstTable (by decide)

/-- Is the cell a string (object-dtype) cell? -/
def Value.isStrB : Value → Bool
  | .vStr _ => true
  | .vNum _ => false

theorem vStr_render {v : Value} (h : v.isStrB = true) : Value.vStr v.render = v := by
  cases v with
  | vStr s => rfl
  | vNum n => simp [Value.isStrB] at h

/-- Reading a row in which no column was inferred numeric preserves every
cell as a string. -/
theorem parseRow_id (r : List String) (num : Nat → Bool)
    (hnum : ∀ j < r.length, num j = false) :
    (List.range r.length).map (fun j => parseCell (num j) (r.getD j "")) =
      r.map Value.vStr := by
  apply List.ext_getElem
  · simp
  · intro i h1 h2
    have hi : i < r.length := by simpa using h1
    simp only [List.getElem_map, List.getElem_range]
    rw [List.getD_eq_getElem r "" hi]
    simp [parseCell, hnum i hi]

/-- Claim C5 (amended): re-reading a cache entry yields the written table
provided no csv column of the written file (the code column included)
consists entirely of numeric-looking strings; columns that do are re-typed
to numbers by `pd.read_csv` and equality fails (see the counterexample). -/
theorem c5_roundtrip_amended (t : Table) (hidx : t.indexName = "Code")
    (hne : t.entries ≠ [])
    (hwf : ∀ p ∈ t.entries, p.2.length = t.columns.length)
    (hstr : ∀ p ∈ t.entries, p.1.isStrB = true ∧ ∀ v ∈ p.2, v.isStrB = true)
    (hnc : ∀ j < t.toCsv.header.length, colAllNumeric t.toCsv j = false) :
    tryCache "twse" (.present t.toCsv) = some t := by
  have hrows : (readCsv t.toCsv).rows =
      t.entries.map
        (fun p => Value.vStr p.1.render :: (p.2.map Value.render).map Value.vStr) := by
    show (t.toCsv.records).map _ = _
    rw [show t.toCsv.records =
      t.entries.map (fun p => p.1.render :: p.2.map Value.render) from rfl]
    rw [List.map_map]
    apply List.map_congr_left
    intro p hp
    have hlenr : (p.1.render :: p.2.map Value.render).length = t.toCsv.header.length := by
      simp [Table.toCsv, hwf p hp]
    show (List.range t.toCsv.header.length).map _ = _
    rw [← hlenr]
    rw [parseRow_id _ _ (fun j hj => hnc j (by rwa [hlenr] at hj))]
    simp
  simp only [tryCache]
  rw [if_neg (by simp [readCsv_toCsv_nonempty hne])]
  rw [processCache_twse_def]
  unfold Frame.setIndex
  rw [readCsv_toCsv_columns, hidx]
  rw [show List.findIdx? (fun c => c == "Code") ("Code" :: t.columns) = some 0 by
    simp [List.findIdx?_cons]]
  simp only []
  rw [hrows, List.map_map]
  have hent : t.entries.map
      ((fun r => (r.getD 0 (Value.vStr ""), r.eraseIdx 0)) ∘
        (fun p => Value.vStr p.1.render :: (p.2.map Value.render).map Value.vStr)) =
      t.entries := by
    have hcongr : ∀ p ∈ t.entries,
        ((fun r => (r.getD 0 (Value.vStr ""), r.eraseIdx 0)) ∘
          (fun p => Value.vStr p.1.render :: (p.2.map Value.render).map Value.vStr)) p =
          id p := by
      intro p hp
      obtain ⟨hs1, hs2⟩ := hstr p hp
      show (Value.vStr p.1.render, (p.2.map Value.render).map Value.vStr) = p
      rw [vStr_render hs1, List.map_map]
      have : p.2.map (Value.vStr ∘ Value.render) = p.2.map id := by
        apply List.map_congr_left
        intro v hv
        exact vStr_render (hs2 v hv)
      rw [this, List.map_id]
    rw [List.map_congr_left hcongr, List.map_id]
  rw [hent]
  show some ⟨"Code", t.columns, t.entries⟩ = some t
  rw [← hidx]

/-- A table whose cells are not numeric-looking, written and re-read
unchanged: witness for the amended C5. -/
def c5CleanTable : Table := ⟨"Code", ["Name"], [(.vStr "A12B", [.vStr "WOWPRIME"])]⟩

/-- Witness for the amended C5 at a concrete input. -/
theorem c5_roundtrip_amended_witness :
    tryCache "twse" (.present c5CleanTable.toCsv) = some c5CleanTable :=
  c5_roundtrip_amended c5CleanTable rfl (by decide) (by decide) (by decide) (by decide)

/-- Claim C7 (amended): load_company_data returns a combined record exactly
when the identifier yields a token, the code is known to the registry, both
statement fetches succeed, and the code is present in both fetched tables;
in every other case (unknown code such as "9999" included) it returns the
null result without raising. -/
theorem c7_null_iff (company now : String)
    (doFetch : String → String → Except FetchError Table) :
    (load_company_data company doFetch now).isSome = true ↔
      ∃ code info is_df bs_df,
        firstToken company = some code ∧
        COMPANIES.find? (fun c => c.code == code) = some info ∧
        doFetch "is" info.market = .ok is_df ∧
        doFetch "bs" info.market = .ok bs_df ∧
        Value.vStr code ∈ is_df.index ∧ Value.vStr code ∈ bs_df.index := by
  unfold load_company_data
  cases h1 : firstToken company with
  | none => simp [h1]
  | some code =>
    cases h2 : COMPANIES.find? (fun c => c.code == code) with
    | none => simp [h1, h2]
    | some info =>
      cases h3 : doFetch "is" info.market with
      | error e => simp [h1, h2, h3]
      | ok is_df =>
        cases h4 : doFetch "bs" info.market with
        | error e => simp [h1, h2, h3, h4]
        | ok bs_df =>
          simp only [h2, h3, h4]
          by_cases h5 : Value.vStr code ∈ is_df.index ∧ Value.vStr code ∈ bs_df.index
          · rw [if_pos h5]
            simp [h1, h2, h3, h4, h5.1, h5.2]
          · rw [if_neg h5]
            simp only [Option.isSome_none, Bool.false_eq_true, false_iff]
            intro ⟨code2, info2, is2, bs2, hc1, hc2, hc3, hc4, hc5, hc6⟩
            injection hc1 with hc1
            subst hc1
            rw [h2] at hc2
            injection hc2 with hc2
            subst hc2
            rw [h3] at hc3
            injection hc3 with hc3
            subst hc3
            rw [h4] at hc4
            injection hc4 with hc4
            subst hc4
            exact h5 ⟨hc5, hc6⟩

end FinanceViz
